import Mathlib

/-!
Shallow embedding of the question-builder record store
(`src/apps/question-builder/src/App.tsx`): the zod `questionSchema`, the
zustand store (`questions`, `addQuestion`, `updateQuestion`, `deleteQuestion`,
`getQuestionsByCategory`) and the derived views (`categories`,
`filteredQuestions`) computed in the component.
-/

set_option autoImplicit false

namespace QuestionBuilder

/-- The closed `type` enumeration of `questionSchema`:
`z.enum(["multiple-choice", "true-false", "short-answer"])`. -/
inductive QuestionType where
  | multipleChoice
  | trueFalse
  | shortAnswer
deriving Repr, DecidableEq

/-- The closed `difficulty` enumeration of `questionSchema`:
`z.enum(["easy", "medium", "hard"])`. -/
inductive Difficulty where
  | easy
  | medium
  | hard
deriving Repr, DecidableEq

/-- A stored record: `interface Question extends QuestionForm { id: string;
createdAt: Date }`.  `createdAt` is the epoch-milliseconds value of the
`Date`; `options` is `Option` because the zod field is `.optional()`. -/
structure Question where
  id : String
  type : QuestionType
  question : String
  options : Option (List String)
  correctAnswer : String
  difficulty : Difficulty
  category : String
  createdAt : Nat
deriving Repr, DecidableEq

/-- The zustand store state together with the number of subscriber
notification rounds that have happened.  Each of the three mutating actions
calls zustand's `set` with a state holding a freshly allocated `questions`
array, so `set` builds a new state object and always invokes every listener:
we model that by incrementing `notifications` on every `set`. -/
structure QuestionStore where
  questions : List Question
  notifications : Nat
deriving Repr, DecidableEq

/-- zustand `set` applied to a `{ questions: ... }` partial: replaces the
collection and notifies all subscribers (the fresh array makes the new state
object never `Object.is`-equal to the old one). -/
def setQuestions (s : QuestionStore) (qs : List Question) : QuestionStore :=
  { questions := qs, notifications := s.notifications + 1 }

/-- The argument of `addQuestion`: `Omit<Question, "id" | "createdAt">`. -/
structure QuestionInput where
  type : QuestionType
  question : String
  options : Option (List String)
  correctAnswer : String
  difficulty : Difficulty
  category : String
deriving Repr, DecidableEq

/-- The record `{ ...question, id: Date.now().toString(), createdAt: new
Date() }` that `addQuestion` builds; `now` is the epoch-milliseconds clock
reading at the call (`Date.now()` and `new Date()` observe the same
instant). -/
def storedQuestion (now : Nat) (q : QuestionInput) : Question :=
  { id := toString now
    type := q.type
    question := q.question
    options := q.options
    correctAnswer := q.correctAnswer
    difficulty := q.difficulty
    category := q.category
    createdAt := now }

/-- The `addQuestion` action: spreads the existing array and appends the new
record at the end, then `set` (which notifies). -/
def addQuestion (now : Nat) (q : QuestionInput) (s : QuestionStore) : QuestionStore :=
  setQuestions s (s.questions ++ [storedQuestion now q])

/-- Model of `Partial<Question>`: every key may be present or absent.  For
`options` the outer `Option` is key presence and the inner one the field's
own `.optional()` type. -/
structure PartialQuestion where
  id : Option String := none
  type : Option QuestionType := none
  question : Option String := none
  options : Option (Option (List String)) := none
  correctAnswer : Option String := none
  difficulty : Option Difficulty := none
  category : Option String := none
  createdAt : Option Nat := none
deriving Repr, DecidableEq

/-- The JS spread `{ ...q, ...updatedQuestion }`: every key present in the
partial overrides the record's value, including `id` and `createdAt`. -/
def mergeQuestion (q : Question) (p : PartialQuestion) : Question :=
  { id := p.id.getD q.id
    type := p.type.getD q.type
    question := p.question.getD q.question
    options := p.options.getD q.options
    correctAnswer := p.correctAnswer.getD q.correctAnswer
    difficulty := p.difficulty.getD q.difficulty
    category := p.category.getD q.category
    createdAt := p.createdAt.getD q.createdAt }

/-- The `updateQuestion` action: `questions.map((q) => (q.id === id ? { ...q,
...updatedQuestion } : q))`, then `set` (which always notifies). -/
def updateQuestion (i : String) (p : PartialQuestion) (s : QuestionStore) : QuestionStore :=
  setQuestions s (s.questions.map (fun q => if q.id = i then mergeQuestion q p else q))

/-- The `deleteQuestion` action: `questions.filter((q) => q.id !== id)`,
then `set` (which always notifies, matching entry or not). -/
def deleteQuestion (i : String) (s : QuestionStore) : QuestionStore :=
  setQuestions s (s.questions.filter (fun q => q.id ≠ i))

/-- The `getQuestionsByCategory` query: `get().questions.filter((q) =>
q.category === category)` — a literal exact match, with no wildcard
handling. -/
def getQuestionsByCategory (category : String) (s : QuestionStore) : List Question :=
  s.questions.filter (fun q => q.category = category)

/-- The component-level derived view `filteredQuestions`: `selectedCategory
=== "all" ? questions : questions.filter((q) => q.category ===
selectedCategory)`. -/
def filteredQuestions (selectedCategory : String) (qs : List Question) : List Question :=
  if selectedCategory = "all" then qs
  else qs.filter (fun q => q.category = selectedCategory)

/-- First-seen-order deduplication, the behaviour of JS
`Array.from(new Set(xs))`. -/
def insertionDedup : List String → List String
  | [] => []
  | a :: l => a :: insertionDedup (l.filter (fun b => b ≠ a))
termination_by l => l.length
decreasing_by
  simp only [List.length_cons]
  exact Nat.lt_succ_of_le (List.length_filter_le _ _)

/-- The component-level derived view `categories`:
`Array.from(new Set(questions.map((q) => q.category)))`. -/
def categories (qs : List Question) : List String :=
  insertionDedup (qs.map Question.category)

/-- A raw candidate as submitted to the zod schema: the two enum fields
arrive as strings and are checked against their enumerations. -/
structure Candidate where
  type : String
  question : String
  options : Option (List String)
  correctAnswer : String
  difficulty : String
  category : String
deriving Repr, DecidableEq

/-- A candidate becomes this after the `z.enum` on `type` succeeds: the
`z.infer<typeof questionSchema>` shape. -/
structure QuestionForm where
  type : QuestionType
  question : String
  options : Option (List String)
  correctAnswer : String
  difficulty : Difficulty
  category : String
deriving Repr, DecidableEq

/-- The check `z.enum(["multiple-choice", "true-false", "short-answer"])`
on the `type` field. -/
def parseQuestionType : String → Option QuestionType
  | "multiple-choice" => some .multipleChoice
  | "true-false" => some .trueFalse
  | "short-answer" => some .shortAnswer
  | _ => none

/-- The check `z.enum(["easy", "medium", "hard"])` on the `difficulty`
field. -/
def parseDifficulty : String → Option Difficulty
  | "easy" => some .easy
  | "medium" => some .medium
  | "hard" => some .hard
  | _ => none

/-- The issue list zod accumulates for `questionSchema`, in field
declaration order.  The only checks the schema performs are the two `z.enum`
memberships and `.min(1, msg)` on `question`, `correctAnswer` and
`category`; `options` is `z.array(z.string()).optional()` with no length
constraint, so no issue on `options` is ever produced.  `.min(1)` is a raw
length check: no trimming, no normalization of any kind. -/
def validationIssues (c : Candidate) : List (String × String) :=
  (if (parseQuestionType c.type).isNone then [("type", "Invalid enum value")] else [])
    ++ (if c.question.length < 1 then [("question", "Question is required")] else [])
    ++ (if c.correctAnswer.length < 1 then [("correctAnswer", "Correct answer is required")] else [])
    ++ (if (parseDifficulty c.difficulty).isNone then [("difficulty", "Invalid enum value")] else [])
    ++ (if c.category.length < 1 then [("category", "Category is required")] else [])

/-- The `questionSchema` parse: succeeds exactly when zod accumulates zero
issues, and on success returns the parsed data unchanged (zod performs no
transform here: the output strings are the input strings verbatim). -/
def validate (c : Candidate) : Except (List (String × String)) QuestionForm :=
  match parseQuestionType c.type, parseDifficulty c.difficulty with
  | some t, some d =>
      if validationIssues c = [] then
        Except.ok
          { type := t
            question := c.question
            options := c.options
            correctAnswer := c.correctAnswer
            difficulty := d
            category := c.category }
      else Except.error (validationIssues c)
  | _, _ => Except.error (validationIssues c)

/-- The first seeded record of the store's initial state. -/
def seedQ1 : Question :=
  { id := "1"
    type := .multipleChoice
    question := "What is the capital of France?"
    options := some ["London", "Berlin", "Paris", "Madrid"]
    correctAnswer := "Paris"
    difficulty := .easy
    category := "Geography"
    createdAt := 0 }

/-- The second seeded record of the store's initial state. -/
def seedQ2 : Question :=
  { id := "2"
    type := .trueFalse
    question := "The Earth is flat."
    options := none
    correctAnswer := "False"
    difficulty := .easy
    category := "Science"
    createdAt := 0 }

/-- The store's initial state: the two seeded questions, no notification
yet. -/
def seedStore : QuestionStore :=
  { questions := [seedQ1, seedQ2], notifications := 0 }

/-- The `Partial<Question>` with no key present (an empty update object). -/
def emptyFields : PartialQuestion := {}

/-- An update object carrying only a `difficulty` key, as in
`update(id, \x7bdifficulty: "hard"\x7d)`. -/
def hardFields : PartialQuestion := { difficulty := some Difficulty.hard }

/-- An update object that carries `id` and `createdAt` keys — a legal
`Partial<Question>` value in TypeScript. -/
def takeoverFields : PartialQuestion :=
  { id := some ("9"), createdAt := some 77 }

/-- A form payload for exercising `addQuestion`. -/
def demoInput : QuestionInput :=
  { type := QuestionType.shortAnswer
    question := "2+2?"
    options := none
    correctAnswer := "4"
    difficulty := Difficulty.easy
    category := "Math" }

/-- A store whose single record has the id `"5"`, i.e. the id that
`Date.now().toString()` produces when the clock reads 5. -/
def collideStore : QuestionStore :=
  { questions := [{ seedQ1 with id := "5" }], notifications := 0 }

/-- A multiple-choice candidate whose `options` has zero non-empty
entries. -/
def mcNoOptions : Candidate :=
  { type := "multiple-choice"
    question := "2+2?"
    options := some []
    correctAnswer := "4"
    difficulty := "easy"
    category := "Math" }

/-- A candidate whose `question`, `correctAnswer` and `category` are a
single space and whose `options` entries are all empty strings. -/
def blankCandidate : Candidate :=
  { type := "multiple-choice"
    question := " "
    options := some ["", ""]
    correctAnswer := " "
    difficulty := "easy"
    category := " " }

/-- A fully valid multiple-choice candidate (the seeded Geography
question as form input). -/
def validCandidate : Candidate :=
  { type := "multiple-choice"
    question := "What is the capital of France?"
    options := some ["London", "Berlin", "Paris", "Madrid"]
    correctAnswer := "Paris"
    difficulty := "easy"
    category := "Geography" }

/-- The form that `validate` produces for `validCandidate`. -/
def validOutput : QuestionForm :=
  { type := QuestionType.multipleChoice
    question := "What is the capital of France?"
    options := some ["London", "Berlin", "Paris", "Madrid"]
    correctAnswer := "Paris"
    difficulty := Difficulty.easy
    category := "Geography" }

/-- Merging the empty update object changes nothing: every `getD` falls back
to the record's own field. -/
theorem mergeQuestion_emptyFields (q : Question) : mergeQuestion q emptyFields = q := rfl

/-- Mapping the update function over records that all miss the id is the
identity. -/
theorem map_update_of_absent (i : String) (p : PartialQuestion) (l : List Question)
    (h : ∀ q ∈ l, q.id ≠ i) :
    (l.map fun q => if q.id = i then mergeQuestion q p else q) = l := by
  have hcong : (l.map fun q => if q.id = i then mergeQuestion q p else q) = l.map id :=
    List.map_congr_left (fun q hq => by rw [if_neg (h q hq)]; rfl)
  rw [hcong, List.map_id]

/-- C10: calling `updateQuestion` with an empty partial-fields object is an
identity on the collection — every record, the length and the order are
unchanged (the spread `\x7b...q\x7d` rebuilds each record with its own
fields). -/
theorem C10_update_emptyFields_identity (i : String) (s : QuestionStore) :
    (updateQuestion i emptyFields s).questions = s.questions := by
  simp only [updateQuestion, setQuestions]
  simp [mergeQuestion_emptyFields]

/-- C1 counterexample: updating the absent id `"99"` does not fail with any
error — `updateQuestion` returns an ordinary store (its codomain has no
error case at all), the collection is bit-for-bit unchanged, and the
mutation even completes with a subscriber notification.  The operation
succeeds silently doing nothing, which is exactly what the claim rules
out. -/
theorem C1_counterexample :
    updateQuestion ("99") hardFields seedStore
      = { questions := seedStore.questions, notifications := 1 } := by decide

/-- C1 amended: for an id absent from the collection, `updateQuestion` is a
silent no-op on the collection — no `NotFoundError` is signalled (the
operation's result type has no error case) and the collection is left
unchanged — while subscribers are still notified, because zustand's `set`
runs unconditionally on a freshly built array. -/
theorem C1_update_absent_silent_noop (i : String) (p : PartialQuestion) (s : QuestionStore)
    (habs : ∀ q ∈ s.questions, q.id ≠ i) :
    (updateQuestion i p s).questions = s.questions ∧
    (updateQuestion i p s).notifications = s.notifications + 1 := by
  refine ⟨?_, rfl⟩
  simp only [updateQuestion, setQuestions]
  exact map_update_of_absent i p s.questions habs

/-- C1 witness: the amended statement at the concrete absent id `"99"` on
the seeded store. -/
theorem C1_witness :
    (updateQuestion ("99") hardFields seedStore).questions = seedStore.questions ∧
    (updateQuestion ("99") hardFields seedStore).notifications = seedStore.notifications + 1 :=
  C1_update_absent_silent_noop ("99") hardFields seedStore (by decide)

/-- C3 counterexample: deleting the absent id `"99"` leaves the collection
unchanged, yet the notification count still rises by one — `deleteQuestion`
calls `set` with a freshly allocated array whether or not anything matched,
so subscribers ARE notified, and the action returns no boolean at all
(`(id: string) => void`). -/
theorem C3_counterexample :
    deleteQuestion ("99") seedStore
      = { questions := seedStore.questions, notifications := seedStore.notifications + 1 } := by
  decide

/-- C3 amended: `deleteQuestion` returns no value (void, not a boolean);
when the id is absent the collection contents and length are unchanged, but
subscribers are still notified because `set` runs unconditionally. -/
theorem C3_delete_absent_noop_still_notifies (i : String) (s : QuestionStore)
    (habs : ∀ q ∈ s.questions, q.id ≠ i) :
    (deleteQuestion i s).questions = s.questions ∧
    (deleteQuestion i s).notifications = s.notifications + 1 := by
  refine ⟨?_, rfl⟩
  simp only [deleteQuestion, setQuestions]
  exact List.filter_eq_self.mpr (fun q hq => by simpa using habs q hq)

/-- C3 witness: the amended statement at the concrete absent id `"99"` on
the seeded store. -/
theorem C3_witness :
    (deleteQuestion ("99") seedStore).questions = seedStore.questions ∧
    (deleteQuestion ("99") seedStore).notifications = seedStore.notifications + 1 :=
  C3_delete_absent_noop_still_notifies ("99") seedStore (by decide)

/-- C9: after `deleteQuestion i`, no record with id `i` remains (the filter
removes every match, not just the first), and the survivors are exactly the
non-matching records in their original relative order (a sublist of the
original collection). -/
theorem C9_delete_removes_all (i : String) (s : QuestionStore) :
    (∀ q ∈ (deleteQuestion i s).questions, q.id ≠ i)
    ∧ (deleteQuestion i s).questions.Sublist s.questions
    ∧ (∀ q ∈ s.questions, q.id ≠ i → q ∈ (deleteQuestion i s).questions) := by
  simp only [deleteQuestion, setQuestions]
  refine ⟨?_, List.filter_sublist _, ?_⟩
  · intro q hq
    simpa using List.of_mem_filter hq
  · intro q hq hne
    exact List.mem_filter.mpr ⟨hq, by simpa using hne⟩

/-- C9 witness: the seeded Geography record survives deletion of the id
`"2"`. -/
theorem C9_witness : seedQ1 ∈ (deleteQuestion ("2") seedStore).questions :=
  (C9_delete_removes_all ("2") seedStore).2.2 seedQ1 (by decide) (by decide)

/-- C2 counterexample: updating the existing id `"1"` with a partial that
carries `id` and `createdAt` keys REWRITES both protected fields — the
spread `\x7b...q, ...updatedQuestion\x7d` lets the partial win on every key,
so the record's id becomes `"9"` and its `createdAt` becomes 77. -/
theorem C2_counterexample :
    (updateQuestion ("1") takeoverFields seedStore).questions.map
        (fun q => (q.id, q.createdAt))
      = [(("9" : String), (77 : Nat)), (("2" : String), (0 : Nat))] := by decide

/-- C2 amended: `updateQuestion` on a present id replaces the matching
record in place (records before and after it keep their positions), and the
replacement is a shallow merge in which EVERY key present in the partial
overrides the record — including `id` and `createdAt`, which are not
protected — while every absent key leaves the record's field unchanged. -/
theorem C2_update_merges_provided_fields (i : String) (p : PartialQuestion)
    (pre post : List Question) (q : Question) (n : Nat)
    (hq : q.id = i) (hpre : ∀ r ∈ pre, r.id ≠ i) (hpost : ∀ r ∈ post, r.id ≠ i) :
    (updateQuestion i p { questions := pre ++ q :: post, notifications := n }).questions
      = pre ++ mergeQuestion q p :: post
    ∧ (∀ v, p.id = some v → (mergeQuestion q p).id = v)
    ∧ (∀ v, p.createdAt = some v → (mergeQuestion q p).createdAt = v)
    ∧ (p.id = none → (mergeQuestion q p).id = q.id)
    ∧ (p.createdAt = none → (mergeQuestion q p).createdAt = q.createdAt)
    ∧ (p.type = none → (mergeQuestion q p).type = q.type)
    ∧ (p.question = none → (mergeQuestion q p).question = q.question)
    ∧ (p.options = none → (mergeQuestion q p).options = q.options)
    ∧ (p.correctAnswer = none → (mergeQuestion q p).correctAnswer = q.correctAnswer)
    ∧ (p.difficulty = none → (mergeQuestion q p).difficulty = q.difficulty)
    ∧ (p.category = none → (mergeQuestion q p).category = q.category)
    ∧ (∀ v, p.difficulty = some v → (mergeQuestion q p).difficulty = v) := by
  refine ⟨?_, ?_, ?_, ?_, ?_, ?_, ?_, ?_, ?_, ?_, ?_, ?_⟩
  · simp only [updateQuestion, setQuestions, List.map_append, List.map_cons]
    rw [map_update_of_absent i p pre hpre, map_update_of_absent i p post hpost, if_pos hq]
  all_goals
    first
      | (intro v hv; simp [mergeQuestion, hv])
      | (intro hv; simp [mergeQuestion, hv])

/-- C2 witness: the in-place replacement clause of the amended statement at
the seeded store, id `"1"`, with a difficulty-only partial. -/
theorem C2_witness :
    (updateQuestion ("1") hardFields
        { questions := [] ++ seedQ1 :: [seedQ2], notifications := 0 }).questions
      = [] ++ mergeQuestion seedQ1 hardFields :: [seedQ2] :=
  (C2_update_merges_provided_fields ("1") hardFields [] [seedQ2] seedQ1 0
    rfl (by decide) (by decide)).1

/-- C6 counterexample: the store-level `getQuestionsByCategory` has no
wildcard — applied to `"all"` on the seeded store it returns the empty
list, not the full two-record collection. -/
theorem C6_counterexample :
    getQuestionsByCategory ("all") seedStore = [] ∧ seedStore.questions.length = 2 := by
  decide

/-- C6 amended: `getQuestionsByCategory` always filters by literal
case-sensitive equality of `category` (so `"all"` matches only records whose
category is the string `"all"`); the wildcard lives one level up, in the
component's `filteredQuestions` view, where `"all"` yields the whole
collection and any other value yields exactly the records with matching
category, in their original relative order. -/
theorem C6_wildcard_is_view_level (qs : List Question) (n : Nat) (c : String) :
    filteredQuestions ("all") qs = qs
    ∧ (c ≠ "all" → filteredQuestions c qs = qs.filter (fun q => q.category = c))
    ∧ getQuestionsByCategory c { questions := qs, notifications := n }
        = qs.filter (fun q => q.category = c)
    ∧ (qs.filter (fun q => q.category = c)).Sublist qs
    ∧ (∀ q, q ∈ getQuestionsByCategory c { questions := qs, notifications := n }
        ↔ q ∈ qs ∧ q.category = c) := by
  refine ⟨?_, ?_, rfl, List.filter_sublist _, ?_⟩
  · simp [filteredQuestions]
  · intro hc
    simp [filteredQuestions, hc]
  · intro q
    simp [getQuestionsByCategory, List.mem_filter]

/-- C6 witness: the exact-match clause of the amended statement at the
seeded records and the category `"Geography"`. -/
theorem C6_witness :
    filteredQuestions ("Geography") seedStore.questions
      = seedStore.questions.filter (fun q => q.category = "Geography") :=
  (C6_wildcard_is_view_level seedStore.questions 0 ("Geography")).2.1 (by decide)

/-- C7 counterexample: ids are NOT guaranteed fresh — `Date.now().toString()`
is taken as the id, so adding to a store that already holds a record with id
`"5"` while the clock reads 5 produces two records with the same id. -/
theorem C7_counterexample :
    (addQuestion 5 demoInput collideStore).questions.map Question.id = ["5", "5"] := by
  decide

/-- C7 amended: `addQuestion` appends exactly one new entry at the end —
the length grows by one and every existing entry is unchanged in place —
whose id is `Date.now().toString()` and whose `createdAt` is the current
time; that id is unique only when no stored record already carries the
string of the current clock value (which the code never checks). -/
theorem C7_add_appends (now : Nat) (q : QuestionInput) (s : QuestionStore) :
    (addQuestion now q s).questions = s.questions ++ [storedQuestion now q]
    ∧ (addQuestion now q s).questions.length = s.questions.length + 1
    ∧ (addQuestion now q s).questions.take s.questions.length = s.questions
    ∧ (storedQuestion now q).id = toString now
    ∧ (storedQuestion now q).createdAt = now
    ∧ (addQuestion now q s).notifications = s.notifications + 1
    ∧ (toString now ∉ s.questions.map Question.id
        → (storedQuestion now q).id ∉ s.questions.map Question.id) := by
  refine ⟨rfl, ?_, ?_, rfl, rfl, rfl, fun h => h⟩
  · simp [addQuestion, setQuestions]
  · simp only [addQuestion, setQuestions]
    exact List.take_left s.questions [storedQuestion now q]

/-- C7 witness: the freshness clause of the amended statement at the seeded
store with the clock at 3 (the seeded ids are `"1"` and `"2"`). -/
theorem C7_witness :
    (storedQuestion 3 demoInput).id ∉ seedStore.questions.map Question.id :=
  (C7_add_appends 3 demoInput seedStore).2.2.2.2.2.2 (by decide)

/-- Membership in the first-seen dedup is membership in the original
list. -/
theorem mem_insertionDedup (a : String) (l : List String) :
    a ∈ insertionDedup l ↔ a ∈ l := by
  induction l using insertionDedup.induct with
  | case1 => simp [insertionDedup]
  | case2 b l ih =>
      rw [insertionDedup, List.mem_cons, List.mem_cons, ih, List.mem_filter]
      by_cases hab : a = b <;> simp [hab]

/-- The first-seen dedup has no duplicate entries. -/
theorem nodup_insertionDedup (l : List String) : (insertionDedup l).Nodup := by
  induction l using insertionDedup.induct with
  | case1 => simp [insertionDedup]
  | case2 b l ih =>
      simp only [insertionDedup, List.nodup_cons]
      refine ⟨?_, ih⟩
      rw [mem_insertionDedup]
      simp [List.mem_filter]

/-- C8: the `categories` view is computed from the current collection — a
string is in it exactly when some currently stored record carries it as its
`category`, it holds no duplicates, and on the empty collection it is
empty. -/
theorem C8_categories_is_distinct_set (qs : List Question) (c : String) :
    (c ∈ categories qs ↔ ∃ q ∈ qs, q.category = c)
    ∧ (categories qs).Nodup
    ∧ categories ([]) = [] := by
  refine ⟨?_, nodup_insertionDedup _, ?_⟩
  · rw [categories, mem_insertionDedup]
    simp [List.mem_map]
  · simp [categories, insertionDedup]

/-- C4 counterexample: a multiple-choice candidate whose `options` is the
empty array (zero non-empty entries) sails through `validate` — the schema
declares `options` as `z.array(z.string()).optional()` with no minimum
count, so no `options` violation is raised and the parse succeeds. -/
theorem C4_counterexample :
    validate mcNoOptions = Except.ok
      { type := QuestionType.multipleChoice
        question := "2+2?"
        options := some []
        correctAnswer := "4"
        difficulty := Difficulty.easy
        category := "Math" } := rfl

/-- C4 amended: the schema performs no count check on `options` at all — no
violation on the `options` field is ever produced, and whether `validate`
accepts a candidate does not depend on its `options` value, so a
multiple-choice candidate with fewer than 2 non-empty entries passes
whenever its other fields do. -/
theorem C4_no_options_check (c : Candidate) (o₁ o₂ : Option (List String)) :
    (validationIssues c).filter (fun v => v.1 = "options") = []
    ∧ (validate { c with options := o₁ }).isOk = (validate { c with options := o₂ }).isOk := by
  obtain ⟨ty, qu, op, ca, di, cg⟩ := c
  constructor
  · simp only [validationIssues]
    split_ifs <;> rfl
  · rcases h1 : parseQuestionType ty with _ | t <;>
      rcases h2 : parseDifficulty di with _ | d <;>
        simp only [validate, validationIssues, h1, h2] <;>
        first
          | rfl
          | (split_ifs <;> rfl)

/-- Zero accumulated issues force the three `.min(1)` checks to have
passed: the raw (untrimmed) strings have length at least one. -/
theorem of_validationIssues_empty (c : Candidate) (h : validationIssues c = []) :
    1 ≤ c.question.length ∧ 1 ≤ c.correctAnswer.length ∧ 1 ≤ c.category.length := by
  simp only [validationIssues] at h
  split_ifs at h <;> simp at h
  refine ⟨?_, ?_, ?_⟩ <;> omega

/-- Modelled from the spec: the trimming step the spec's normalization
performs on string fields (the source performs none).  Removes leading and
trailing whitespace characters, as JS `String.prototype.trim` does. -/
def specTrim (s : String) : String :=
  String.mk (((s.data.dropWhile Char.isWhitespace).reverse.dropWhile
    Char.isWhitespace).reverse)

/-- C5 counterexample: `validate` does no normalization — a candidate whose
`question`, `correctAnswer` and `category` are a single space and whose
`options` entries are all empty strings is accepted verbatim: nothing is
trimmed, no empty option entry is dropped, and the accepted prompt trims to
the empty string (so it is NOT non-empty after trimming). -/
theorem C5_counterexample :
    validate blankCandidate = Except.ok
      { type := QuestionType.multipleChoice
        question := " "
        options := some ["", ""]
        correctAnswer := " "
        difficulty := Difficulty.easy
        category := " " }
    ∧ specTrim (" ") = "" := ⟨rfl, by decide⟩

/-- C5 amended: `validate` performs no normalization of any kind — on
success it returns the candidate's `question`, `options`, `correctAnswer`
and `category` verbatim (no trimming, no dropping of empty `options`
entries), and the only guarantee on an accepted record is that the raw
strings have length at least one, which whitespace-only strings satisfy. -/
theorem C5_no_normalization (c : Candidate) (f : QuestionForm)
    (h : validate c = Except.ok f) :
    f.question = c.question ∧ f.options = c.options
    ∧ f.correctAnswer = c.correctAnswer ∧ f.category = c.category
    ∧ 1 ≤ c.question.length ∧ 1 ≤ c.correctAnswer.length ∧ 1 ≤ c.category.length := by
  simp only [validate] at h
  rcases h1 : parseQuestionType c.type with _ | t <;>
    rcases h2 : parseDifficulty c.difficulty with _ | d <;>
      simp only [h1, h2] at h <;> try cases h
  split_ifs at h with hi
  rw [Except.ok.injEq] at h
  subst h
  obtain ⟨hq, ha, hg⟩ := of_validationIssues_empty c hi
  exact ⟨rfl, rfl, rfl, rfl, hq, ha, hg⟩

/-- C5 witness: the amended statement at the concrete seeded Geography
candidate, whose successful parse is `validOutput`. -/
theorem C5_witness :
    validOutput.question = validCandidate.question
    ∧ validOutput.options = validCandidate.options
    ∧ validOutput.correctAnswer = validCandidate.correctAnswer
    ∧ validOutput.category = validCandidate.category
    ∧ 1 ≤ validCandidate.question.length
    ∧ 1 ≤ validCandidate.correctAnswer.length
    ∧ 1 ≤ validCandidate.category.length :=
  C5_no_normalization validCandidate validOutput (by rfl)

end QuestionBuilder
